import Mathlib

/-!
Verification of `SensoSysDataSource.py` (EBC-Measurements, "Sensor Electronic"
data source).  The Python class is embedded shallowly: the serial-bus driver
(module `SensoSysDevices`, not part of the reviewed unit) is modelled as a
record of response functions, and every method of `SensoSysDataSource` that
the claims touch is translated into an executable Lean function over that
model.  `sys.exit` sites become explicit outcome values carrying the exit
code, `raise ValueError` becomes `Except.error`, and `logger.warning` calls
in the read loop are collected into an explicit list of messages.
-/

set_option autoImplicit false

namespace SensoSys

/-- JSON scalar values as they occur in the configuration file.
`jnum m e` stands for the decimal number `m / 10^e` (so the default
time-out `0.05` is `jnum 5 2`); exact decimals are all a JSON document
can carry. -/
inductive JVal where
  | jstr (v : String)
  | jbool (v : Bool)
  | jnum (mantissa : Int) (exp10 : Nat)
deriving DecidableEq, Repr

/-- A loaded JSON object (Python `dict`), keys in insertion order. -/
abbrev JDict := List (String × JVal)

/-- Class attribute `_sensosys_configs_default`:
`{'port': 'COM1', 'scan_by_file': False, 'time_out': 0.05}`. -/
def sensosys_configs_default : JDict :=
  [("port", JVal.jstr "COM1"),
   ("scan_by_file", JVal.jbool false),
   ("time_out", JVal.jnum 5 2)]

/-- Key access in a loaded JSON object (first hit; keys are unique in a
`json.load` result). -/
def dlookup (k : String) : JDict → Option JVal
  | [] => none
  | p :: rest => if p.1 == k then some p.2 else dlookup k rest

/-- Python `set(a.keys()) == set(b.keys())`. -/
def sameKeySet (a b : JDict) : Bool :=
  a.all (fun p => b.any (fun q => q.1 == p.1)) &&
  b.all (fun p => a.any (fun q => q.1 == p.1))

/-- Python `dict.update`: keys already present keep their position and get
the new value, new keys are appended in order.  (A loaded JSON object has
unique keys, which the theorems assume where it matters.) -/
def dictUpdate (base upd : JDict) : JDict :=
  (base.map fun p =>
    match dlookup p.1 upd with
    | some v => (p.1, v)
    | none => p)
  ++ upd.filter (fun q => !(base.any (fun p => p.1 == q.1)))

/-- Python `dict` equality (`==`): same key set, same value at every key. -/
def dictEq (a b : JDict) : Bool :=
  a.all (fun p => dlookup p.1 b == some p.2) &&
  b.all (fun p => dlookup p.1 a == some p.2)

/-- Method `_get_sensosys_configs_by_file`, lines 146-161.  `fileIsFile` is
`os.path.isfile(file_name)`, `doc` the document `Auxiliary.load_json`
returns, `configs` the current `self.sensosys_configs`.  Returns the
method's boolean result together with the configuration dict afterwards. -/
def get_sensosys_configs_by_file (fileIsFile : Bool) (doc : JDict)
    (configs : JDict) : Bool × JDict :=
  if fileIsFile then
    if sameKeySet doc configs then
      (true, dictUpdate configs doc)
    else
      (false, configs)
  else
    (false, configs)

/-! ### Dates: `datetime.strptime` for the two formats, `strftime('%Y-%m-%d')` -/

/-- Parsed calendar date (`datetime` restricted to the fields used). -/
structure PDate where
  year : Nat
  month : Nat
  day : Nat
deriving DecidableEq, Repr

def isLeap (y : Nat) : Bool :=
  (y % 4 == 0 && y % 100 != 0) || y % 400 == 0

def daysInMonth (y m : Nat) : Nat :=
  if m == 2 then (if isLeap y then 29 else 28)
  else if m == 4 || m == 6 || m == 9 || m == 11 then 30
  else 31

/-- Split a character list at every occurrence of `sep` (the field
boundaries `strptime` sees; always returns at least one field). -/
def splitSep (sep : Char) : List Char → List (List Char)
  | [] => [[]]
  | c :: rest =>
    if c == sep then [] :: splitSep sep rest
    else
      match splitSep sep rest with
      | [] => [[c]]
      | f :: fs => (c :: f) :: fs

/-- Inverse of `splitSep`: re-join fields with the separator. -/
def joinSep (sep : Char) : List (List Char) → List Char
  | [] => []
  | [f] => f
  | f :: g :: fs => f ++ sep :: joinSep sep (g :: fs)

/-- Digit run to number (fields are validated to be ASCII digits first). -/
def digitsToNat (cs : List Char) : Nat :=
  cs.foldl (fun n c => n * 10 + (c.toNat - 48)) 0

/-- One `%d` / `%m` field: one or two ASCII digits, value within
`[lo, hi]` (the `_strptime` regexes for `%d` and `%m` admit `1`-`31`
resp. `1`-`12`, written with one or two digits, never `0` or `00`). -/
def parseField (cs : List Char) (lo hi : Nat) : Option Nat :=
  if (cs.length == 1 || cs.length == 2) && cs.all Char.isDigit then
    let v := digitsToNat cs
    if lo ≤ v && v ≤ hi then some v else none
  else none

/-- A `%y` field: exactly two ASCII digits; Python maps `00`-`68` to
`2000`-`2068` and `69`-`99` to `1969`-`1999`. -/
def parseYY (cs : List Char) : Option Nat :=
  if cs.length == 2 && cs.all Char.isDigit then
    let v := digitsToNat cs
    some (if v ≤ 68 then 2000 + v else 1900 + v)
  else none

/-- Model of `datetime.strptime(s, '%d' sep '%m' sep '%y')` for a separator
character: the whole string must be day, month, two-digit year joined by
`sep`, and the day must exist in that month (otherwise `strptime` raises
`ValueError`, modelled as `none`). -/
def strpDate (s : String) (sep : Char) : Option PDate :=
  match splitSep sep s.toList with
  | [ds, ms, ys] =>
    match parseField ds 1 31, parseField ms 1 12, parseYY ys with
    | some d, some m, some y =>
      if d ≤ daysInMonth y m then some ⟨y, m, d⟩ else none
    | _, _, _ => none
  | _ => none

def pad2 (n : Nat) : String :=
  if n < 10 then "0" ++ toString n else toString n

/-- Model of `datetime.strftime('%Y-%m-%d')` (all years in range have four digits). -/
def isoString (d : PDate) : String :=
  s!"{d.year}-{pad2 d.month}-{pad2 d.day}"

/-- Lines 210-219 of `_scan_devices`: try `'%d-%m-%y'` then `'%d.%m.%y'`,
each against the *original* string `_exp_date`; a successful parse
overwrites the stored field with the ISO rendering, a `ValueError` is
swallowed and the loop continues, so after both attempts the field holds
the last successful rendering, or the raw string if neither format
matched. -/
def convert_date (s : String) : String :=
  let afterFirst :=
    match strpDate s '-' with
    | some d => isoString d
    | none => s
  match strpDate s '.' with
  | some d => isoString d
  | none => afterFirst

/-! ### Bus scanning (`_scan_devices` and the derived device list) -/

/-- Python `str.startswith`, stated on the character list (equivalent to
`String.startsWith`, but evaluable by the kernel). -/
def startswith (s pre : String) : Bool :=
  pre.toList.isPrefixOf s.toList

/-- Python `str.upper` on the ASCII instrument names the bus delivers. -/
def pyUpper (s : String) : String :=
  String.mk (s.toList.map Char.toUpper)

/-- Python `str.lower`. -/
def pyLower (s : String) : String :=
  String.mk (s.toList.map Char.toLower)

/-- Python `str.strip`: drop leading and trailing whitespace. -/
def pyStrip (s : String) : String :=
  String.mk
    (((s.toList.dropWhile Char.isWhitespace).reverse.dropWhile
        Char.isWhitespace).reverse)

/-- Instrument family, decided by the name-prefix chain used identically at
lines 195-208, 229-237 and 245-269. -/
inductive Family where
  | anemo
  | therm
  | hygro
deriving DecidableEq, Repr

/-- The `startswith` chain `'ANEMO'` / `'THERM'` / `'HYGRO'`; `none` is the
`else: raise ValueError(...)` branch. -/
def classify (n : String) : Option Family :=
  if startswith n "ANEMO" then some Family.anemo
  else if startswith n "THERM" then some Family.therm
  else if startswith n "HYGRO" then some Family.hygro
  else none

/-- The fields of a discovered-device record (`_device_responses`) that the
reviewed behaviour depends on.  Serial number, battery state and the
family-specific configuration/indicator responses are opaque payload merged
into the dict; they never influence control flow and are left out. -/
structure DeviceRecord where
  instrument_name : String
  calibration_expired_date : Option String
  sensor_config : Option Nat
deriving DecidableEq, Repr

/-- The scan-time face of the `SensoSysDevices.SensoSys` driver (external
module): per address, the `instrument_name` field of
`read_instrument_name` (`none` when the whole response is `None`), the
`calibration_expired_date` field of `read_expired_calibration_date`, and
the `sensor_config` field of `senso_hygbar_read_configuration`. -/
structure ScanBus where
  read_instrument_name : Nat → Option String
  read_expired_calibration_date : Nat → Option String
  hygbar_sensor_config : Nat → Option Nat

/-- Python `dict.update({str(_id): _device_responses})` at line 222: replace in
place when the key exists, else append.  Keys are `str(_id)`; `str` is
injective on the integer ids, so `Nat` keys are faithful. -/
def upsert (l : List (Nat × DeviceRecord)) (k : Nat) (v : DeviceRecord) :
    List (Nat × DeviceRecord) :=
  if l.any (fun p => p.1 == k) then
    l.map (fun p => if p.1 == k then (k, v) else p)
  else
    l ++ [(k, v)]

/-- Body of the `for _id in ids` loop of `_scan_devices` for one address:
no response skips the address; a response has its name uppercased and
trimmed, is classified (unknown prefix raises `ValueError`), the
family-specific reads are merged (for `HYGRO` this brings
`sensor_config`), and the calibration date is normalised. -/
def scanDevice (bus : ScanBus) (i : Nat) : Except String (Option DeviceRecord) :=
  match bus.read_instrument_name i with
  | none => Except.ok none
  | some raw =>
    let name := pyStrip (pyUpper raw)
    match classify name with
    | none => Except.error s!"Invalid instrument name {name}"
    | some fam =>
      let sc := match fam with
        | Family.hygro => bus.hygbar_sensor_config i
        | _ => none
      let cal := (bus.read_expired_calibration_date i).map convert_date
      Except.ok (some ⟨name, cal, sc⟩)

/-- Method `_scan_devices(ids)`, lines 177-223: fold the per-address step over the
candidate list, accumulating the `available_devices` dict. -/
def scanDevices (bus : ScanBus) (ids : List Nat)
    (acc : List (Nat × DeviceRecord)) : Except String (List (Nat × DeviceRecord)) :=
  match ids with
  | [] => Except.ok acc
  | i :: rest =>
    match scanDevice bus i with
    | Except.error e => Except.error e
    | Except.ok none => scanDevices bus rest acc
    | Except.ok (some r) => scanDevices bus rest (upsert acc i r)

/-- Method `_scan_devices_by_ids`: scan addresses `0` to `255`. -/
def scan_devices_by_ids (bus : ScanBus) : Except String (List (Nat × DeviceRecord)) :=
  scanDevices bus (List.range 256) []

/-- Method `_scan_devices_by_file`, lines 167-171: `ids` is the file content with
every entry parsed by `int`, in file order. -/
def scan_devices_by_file (bus : ScanBus) (ids : List Nat) :
    Except String (List (Nat × DeviceRecord)) :=
  scanDevices bus ids []

/-- Did the call return normally (no `raise`)? -/
def isOkE {ε α : Type} : Except ε α → Bool
  | Except.ok _ => true
  | Except.error _ => false

/-- Line 117-118: `[(k, v['instrument_name'], v.get('sensor_config')) ...]`. -/
def devicesList (m : List (Nat × DeviceRecord)) : List (Nat × String × Option Nat) :=
  m.map (fun p => (p.1, p.2.instrument_name, p.2.sensor_config))

/-! ### Measurement reading -/

/-- One CSV cell: a reading or Python `None`.  The numeric payload is
opaque to this unit; `Int` stands in for the driver's parsed numbers. -/
abbrev Cell := Option Int

/-- The `senso_anemo_read_measurement_data` response fields read at line 251
(each through `.get`, hence optional). -/
structure AnemoData where
  t_a : Cell
  v : Cell
  v_star : Cell
deriving DecidableEq, Repr

/-- The `senso_therm_read_temperatures_enabled_channels` response fields read
at line 258. -/
structure ThermData where
  t_a : Cell
  t_g : Cell
  t_w : Cell
  t_s : Cell
deriving DecidableEq, Repr

/-- The read-time face of the driver: the three model-specific measurement
reads (`None` response allowed for each) and the class-level table
`senso_hygbar_sensor_config[sc]['params']` giving the parameter-name list
of a hygrometer/barometer sensor-config variant. -/
structure SensoBus where
  senso_anemo_read_measurement_data : Nat → Option AnemoData
  senso_therm_read_temperatures : Nat → Option ThermData
  senso_hygbar_read_measurement_data : Nat → Option Nat → Option (String → Cell)
  senso_hygbar_params : Option Nat → List String

/-- One iteration of the `get_all_measurement_parameters` loop body
(lines 228-237): the parameter names one device appends to `_params`. -/
def paramBlock (bus : SensoBus) (dev : Nat × String × Option Nat) :
    Except String (List String) :=
  let (i, n, sc) := dev
  if startswith n "ANEMO" then
    Except.ok [s!"t_a_{i}", s!"v_{i}", s!"vstar_{i}"]
  else if startswith n "THERM" then
    Except.ok [s!"t_a_{i}", s!"t_g_{i}", s!"t_w_{i}", s!"t_s_{i}"]
  else if startswith n "HYGRO" then
    Except.ok ((bus.senso_hygbar_params sc).map (fun p => s!"{p}_{i}"))
  else
    Except.error s!"Invalid instrument name {n}"

/-- Method `get_all_measurement_parameters`, lines 225-238: concatenate the
per-device blocks over `sensosys_devices_list` in order; an
unclassifiable name raises `ValueError` at the offending device. -/
def get_all_measurement_parameters (bus : SensoBus) :
    List (Nat × String × Option Nat) → Except String (List String)
  | [] => Except.ok []
  | dev :: rest =>
    match paramBlock bus dev with
    | Except.error e => Except.error e
    | Except.ok b =>
      match get_all_measurement_parameters bus rest with
      | Except.error e => Except.error e
      | Except.ok ps => Except.ok (b ++ ps)

/-- The `logger.warning` message of lines 248/255/262. -/
def warnMsg (i : Nat) (n : String) : String :=
  s!"No data received from {i} - {n} ..."

/-- One iteration of the `read_data` loop body (lines 243-269): the cells
one device appends to `_data`, together with the warnings it logs.  A
`None` response from the model-specific read contributes a same-length
block of `None` cells plus one warning; a present response contributes
the `.get`-projected fields. -/
def dataBlock (bus : SensoBus) (dev : Nat × String × Option Nat) :
    Except String (List Cell × List String) :=
  let (i, n, sc) := dev
  if startswith n "ANEMO" then
    match bus.senso_anemo_read_measurement_data i with
    | none => Except.ok ([none, none, none], [warnMsg i n])
    | some r => Except.ok ([r.t_a, r.v, r.v_star], [])
  else if startswith n "THERM" then
    match bus.senso_therm_read_temperatures i with
    | none => Except.ok ([none, none, none, none], [warnMsg i n])
    | some r => Except.ok ([r.t_a, r.t_g, r.t_w, r.t_s], [])
  else if startswith n "HYGRO" then
    match bus.senso_hygbar_read_measurement_data i sc with
    | none =>
      Except.ok (List.replicate (bus.senso_hygbar_params sc).length none,
        [warnMsg i n])
    | some r =>
      Except.ok ((bus.senso_hygbar_params sc).map r, [])
  else
    Except.error s!"Invalid instrument name {n}"

/-- Method `read_data`, lines 240-270: concatenate the per-device cell blocks
over `sensosys_devices_list` in order, collecting the warnings; an
unclassifiable name raises `ValueError` at the offending device. -/
def read_data (bus : SensoBus) :
    List (Nat × String × Option Nat) → Except String (List Cell × List String)
  | [] => Except.ok ([], [])
  | dev :: rest =>
    match dataBlock bus dev with
    | Except.error e => Except.error e
    | Except.ok (b, w) =>
      match read_data bus rest with
      | Except.error e => Except.error e
      | Except.ok (ds, ws) => Except.ok (b ++ ds, w ++ ws)

/-! ### Process exits and post-scan control flow -/

/-- Method `_scan_available_ports`, lines 272-282.  `found` is what
`SensoSysDevices.scan_com_ports()` returned.  On `None` the code calls
`sys.exit()` with no argument, which terminates the process with exit
status `0` (Python exits with `0` when `sys.exit` gets no argument). -/
def scan_available_ports (found : Option (List String)) :
    Except Nat (List String) :=
  match found with
  | none => Except.error 0
  | some ports => Except.ok ports

/-- Method `_get_if_pop_system_device_management`, lines 284-294: lower-cased,
stripped input; `y`/`n` answer, anything else is `sys.exit(1)`. -/
def get_if_pop_system_device_management (input : String) : Except Nat Bool :=
  let t := pyStrip (pyLower input)
  if t == "y" then Except.ok true
  else if t == "n" then Except.ok false
  else Except.error 1

/-- Method `_get_scan_by_file`, lines 302-312: same `y`/`n` contract,
`sys.exit(1)` on anything else. -/
def get_scan_by_file (input : String) : Except Nat Bool :=
  let t := pyStrip (pyLower input)
  if t == "y" then Except.ok true
  else if t == "n" then Except.ok false
  else Except.error 1

/-- Method `_get_if_continue`, lines 314-324: same `y`/`n` contract,
`sys.exit(1)` on anything else. -/
def get_if_continue (input : String) : Except Nat Bool :=
  let t := pyStrip (pyLower input)
  if t == "y" then Except.ok true
  else if t == "n" then Except.ok false
  else Except.error 1

/-- Method `_check_port_name`, lines 163-165. -/
def check_port_name (port : String) (available_ports : List String) : Bool :=
  available_ports.contains port

/-- The port step of `_get_sensosys_configs_by_guide`, lines 127-133: an
unavailable port is `sys.exit(1)`. -/
def guide_port_step (port : String) (available_ports : List String) :
    Except Nat String :=
  if check_port_name port available_ports then Except.ok port
  else Except.error 1

/-- Outcome of `__init__` after the scan (lines 98-108): either the
process exits with a code, or it proceeds with the scanned devices. -/
inductive PostScanOutcome where
  | exit (code : Nat)
  | ready (devices : List (Nat × DeviceRecord))
deriving DecidableEq, Repr

/-- Lines 98-108: zero devices logs an error and calls `sys.exit(0)`;
otherwise `_get_if_continue` is asked, `n` exits with `0`, an invalid
answer exits with `1`, `y` proceeds. -/
def postScan (devices : List (Nat × DeviceRecord)) (continue_input : String) :
    PostScanOutcome :=
  if devices.length == 0 then
    PostScanOutcome.exit 0
  else
    match get_if_continue continue_input with
    | Except.error c => PostScanOutcome.exit c
    | Except.ok true => PostScanOutcome.ready devices
    | Except.ok false => PostScanOutcome.exit 0

/-- What the `__main__` block reaches after the scan: the CSV header is
generated by `get_all_measurement_parameters()` only on the `ready`
path. -/
inductive MainOutcome where
  | exited (code : Nat)
  | header (params : List String)
  | headerError (msg : String)
deriving DecidableEq, Repr

/-- Post-scan slice of the `__main__` flow: lines 98-108 of `__init__`,
then line 345 (`get_all_measurement_parameters` supplies the CSV header
names) on the surviving path. -/
def main_after_scan (bus : SensoBus) (devices : List (Nat × DeviceRecord))
    (continue_input : String) : MainOutcome :=
  match postScan devices continue_input with
  | PostScanOutcome.exit c => MainOutcome.exited c
  | PostScanOutcome.ready ds =>
    match get_all_measurement_parameters bus (devicesList ds) with
    | Except.ok ps => MainOutcome.header ps
    | Except.error e => MainOutcome.headerError e

/-- The seven `sys.exit` call sites of the module. -/
inductive ExitSite where
  | noComPorts
  | invalidDevMgmtAnswer
  | unavailablePort
  | invalidScanByFileAnswer
  | zeroDevicesFound
  | invalidContinueAnswer
  | userStop
deriving DecidableEq, Repr

/-- The exit status at each `sys.exit` site: line 279 `sys.exit()` (status
`0`), line 294 `sys.exit(1)`, line 133 `sys.exit(1)`, line 312
`sys.exit(1)`, line 101 `sys.exit(0)`, line 324 `sys.exit(1)`, line 108
`sys.exit(0)`. -/
def exitCode : ExitSite → Nat
  | ExitSite.noComPorts => 0
  | ExitSite.invalidDevMgmtAnswer => 1
  | ExitSite.unavailablePort => 1
  | ExitSite.invalidScanByFileAnswer => 1
  | ExitSite.zeroDevicesFound => 0
  | ExitSite.invalidContinueAnswer => 1
  | ExitSite.userStop => 0

/-- Strictly ascending, as a boolean. -/
def ascendingB : List Nat → Bool
  | [] => true
  | [_] => true
  | a :: b :: t => a < b && ascendingB (b :: t)

/-! ### Concrete instances used to exercise the theorems -/

/-- The parameter-name block of one device, with the (unreachable for
scanned devices) `ValueError` branch projected to `[]`. -/
def paramBlockD (bus : SensoBus) (dev : Nat × String × Option Nat) : List String :=
  match paramBlock bus dev with
  | Except.ok b => b
  | Except.error _ => []

/-- The cell block of one device, with the (unreachable for scanned
devices) `ValueError` branch projected to `[]`. -/
def dataBlockD (bus : SensoBus) (dev : Nat × String × Option Nat) : List Cell :=
  match dataBlock bus dev with
  | Except.ok (b, _) => b
  | Except.error _ => []

/-- A read-time driver with one answering anemometer (address 1), silent
thermometers, one answering hygrometer/barometer (address 3), and a
two-variant sensor-config table. -/
def sampleBus : SensoBus where
  senso_anemo_read_measurement_data := fun i =>
    if i == 1 then some ⟨some 20, some 1, some 2⟩ else none
  senso_therm_read_temperatures := fun _ => none
  senso_hygbar_read_measurement_data := fun i _ =>
    if i == 3 then some (fun p => if p == "rh" then some 55 else none) else none
  senso_hygbar_params := fun sc =>
    match sc with
    | some 0 => ["rh", "p_baro"]
    | _ => ["t_a_h"]

/-- A driver on which every anemometer measurement read times out. -/
def anemoScenarioBus : SensoBus where
  senso_anemo_read_measurement_data := fun _ => none
  senso_therm_read_temperatures := fun _ => none
  senso_hygbar_read_measurement_data := fun _ _ => none
  senso_hygbar_params := fun _ => []

/-- A scan-time driver with anemometers at addresses 3 and 5 (raw names
still lower case and padded, as the wire delivers them). -/
def demoScanBus : ScanBus where
  read_instrument_name := fun i =>
    if i == 3 || i == 5 then some " anemo-X " else none
  read_expired_calibration_date := fun i =>
    if i == 3 then some "01-02-23" else some "n/a"
  hygbar_sensor_config := fun _ => none

/-- A scan-time driver answering with an unclassifiable instrument name at
address 1 and staying silent at address 2. -/
def fooScanBus : ScanBus where
  read_instrument_name := fun i => if i == 1 then some "FOO-1" else none
  read_expired_calibration_date := fun _ => none
  hygbar_sensor_config := fun _ => none

/-- A complete configuration document (all three keys, fresh values, file
order different from the default order). -/
def sampleConfigDoc : JDict :=
  [("time_out", JVal.jnum 1 0),
   ("port", JVal.jstr "COM7"),
   ("scan_by_file", JVal.jbool true)]

/-- The address-id list of the scan result, `[]` when the scan raised. -/
def scanKeys (r : Except String (List (Nat × DeviceRecord))) : List Nat :=
  match r with
  | Except.ok l => l.map Prod.fst
  | Except.error _ => []

end SensoSys

/-! ## Theorems -/

namespace SensoSys

theorem splitSep_ne_nil (sep : Char) (cs : List Char) : splitSep sep cs ≠ [] := by
  induction cs with
  | nil => simp [splitSep]
  | cons c rest ih =>
    cases hfs : splitSep sep rest with
    | nil => exact absurd hfs ih
    | cons f fs =>
      simp only [splitSep, hfs]
      by_cases hc : (c == sep) = true
      · rw [if_pos hc]; simp
      · rw [if_neg hc]; simp

theorem joinSep_splitSep (sep : Char) (cs : List Char) :
    joinSep sep (splitSep sep cs) = cs := by
  induction cs with
  | nil => rfl
  | cons c rest ih =>
    cases hfs : splitSep sep rest with
    | nil => exact absurd hfs (splitSep_ne_nil sep rest)
    | cons f fs =>
      rw [hfs] at ih
      simp only [splitSep, hfs]
      by_cases hc : (c == sep) = true
      · rw [if_pos hc]
        simp only [joinSep, List.nil_append]
        rw [ih]
        have hcs : c = sep := by simpa using hc
        rw [hcs]
      · rw [if_neg hc]
        cases fs with
        | nil =>
          simp only [joinSep] at ih ⊢
          rw [ih]
        | cons g gs =>
          simp only [joinSep] at ih ⊢
          rw [List.cons_append, ih]

theorem noSep_splitSep (sep : Char) (cs : List Char) (h : sep ∉ cs) :
    splitSep sep cs = [cs] := by
  induction cs with
  | nil => rfl
  | cons c rest ih =>
    have hrest : sep ∉ rest := fun hm => h (List.mem_cons_of_mem c hm)
    have hc : ¬((c == sep) = true) := by
      intro hcc
      have hcs : c = sep := by simpa using hcc
      subst hcs
      exact h (List.mem_cons_self c rest)
    simp only [splitSep, ih hrest]
    rw [if_neg hc]

theorem mem_splitSep3 {sep : Char} {cs a b c3 : List Char}
    (h : splitSep sep cs = [a, b, c3]) {x : Char} (hx : x ∈ cs) :
    x = sep ∨ x ∈ a ∨ x ∈ b ∨ x ∈ c3 := by
  have hj := joinSep_splitSep sep cs
  rw [h] at hj
  rw [← hj] at hx
  simp only [joinSep, List.mem_append, List.mem_cons] at hx
  tauto

theorem parseField_all_digits {cs : List Char} {lo hi v : Nat}
    (h : parseField cs lo hi = some v) : cs.all Char.isDigit = true := by
  unfold parseField at h
  split at h
  · rename_i hcond
    simp only [Bool.and_eq_true] at hcond
    exact hcond.2
  · simp at h

theorem parseYY_all_digits {cs : List Char} {v : Nat}
    (h : parseYY cs = some v) : cs.all Char.isDigit = true := by
  unfold parseYY at h
  split at h
  · rename_i hcond
    simp only [Bool.and_eq_true] at hcond
    exact hcond.2
  · simp at h

theorem strpDate_some_other_none {s : String} {sep sep2 : Char} {d : PDate}
    (h : strpDate s sep = some d) (hne : sep2 ≠ sep)
    (hdig : sep2.isDigit = false) : strpDate s sep2 = none := by
  unfold strpDate at h ⊢
  split at h
  case h_2 => simp at h
  case h_1 ds ms ys hsp =>
    split at h
    case h_2 => simp at h
    case h_1 dd mm yy hd hm hy =>
      have hdigs := parseField_all_digits hd
      have hdigm := parseField_all_digits hm
      have hdigy := parseYY_all_digits hy
      simp only [List.all_eq_true] at hdigs hdigm hdigy
      have hnm : sep2 ∉ s.toList := by
        intro hmem
        rcases mem_splitSep3 hsp hmem with he | hin | hin | hin
        · exact hne he
        · exact absurd (hdigs sep2 hin) (by simp [hdig])
        · exact absurd (hdigm sep2 hin) (by simp [hdig])
        · exact absurd (hdigy sep2 hin) (by simp [hdig])
      rw [noSep_splitSep sep2 s.toList hnm]

/-- C3: for every calibration-expiry string, a value `strptime` accepts
under `'%d-%m-%y'` is stored as the ISO `YYYY-MM-DD` rendering of that
date, a value accepted under `'%d.%m.%y'` likewise, and a value matching
neither format is stored unchanged (`convert_date` is total, so no error
escapes the conversion). -/
theorem calibration_date_normalization (s : String) :
    (∀ d, strpDate s '-' = some d → convert_date s = isoString d) ∧
    (∀ d, strpDate s '.' = some d → convert_date s = isoString d) ∧
    (strpDate s '-' = none → strpDate s '.' = none → convert_date s = s) := by
  refine ⟨?_, ?_, ?_⟩
  · intro d h
    have h2 : strpDate s '.' = none :=
      strpDate_some_other_none h (by decide) (by decide)
    simp [convert_date, h, h2]
  · intro d h
    simp [convert_date, h]
  · intro h1 h2
    simp [convert_date, h1, h2]

/-- Instantiation of `calibration_date_normalization`: both formats on
concrete accepted dates, and a pass-through on an unparsable string. -/
theorem calibration_date_normalization_witness :
    convert_date "01-02-23" = "2023-02-01" ∧
    convert_date "05.06.99" = "1999-06-05" ∧
    convert_date "abc" = "abc" := by
  refine ⟨?_, ?_, ?_⟩
  · have h := (calibration_date_normalization "01-02-23").1 ⟨2023, 2, 1⟩ (by decide)
    rw [h]; decide
  · have h := (calibration_date_normalization "05.06.99").2.1 ⟨1999, 6, 5⟩ (by decide)
    rw [h]; decide
  · exact (calibration_date_normalization "abc").2.2 (by decide) (by decide)


/-- C6: if the scan discovers zero devices, the post-scan flow exits with
code 0 (for any console input — the continue prompt is never reached) and
never reaches the CSV-header generation `get_all_measurement_parameters`:
the outcome is `exited`, not `header`. -/
theorem zero_devices_exits_zero (bus : SensoBus) (continue_input : String) :
    main_after_scan bus [] continue_input = MainOutcome.exited 0 := by
  rfl

/-- C8: for the device list `[(5, "ANEMO-X", None)]` the header list is
exactly `["t_a_5", "v_5", "vstar_5"]`, and a read cycle whose anemometer
measurement read returns no response yields the row
`[None, None, None]` (with the corresponding warning logged). -/
theorem anemo_x_scenario :
    get_all_measurement_parameters anemoScenarioBus [(5, "ANEMO-X", none)] =
      Except.ok ["t_a_5", "v_5", "vstar_5"] ∧
    read_data anemoScenarioBus [(5, "ANEMO-X", none)] =
      Except.ok ([none, none, none], [warnMsg 5 "ANEMO-X"]) := by
  constructor
  · rfl
  · rfl


theorem get_if_pop_error {s : String} {c : Nat}
    (h : get_if_pop_system_device_management s = Except.error c) : c = 1 := by
  simp only [get_if_pop_system_device_management] at h
  split at h
  · simp at h
  · split at h
    · simp at h
    · simpa using h.symm

theorem get_scan_by_file_error {s : String} {c : Nat}
    (h : get_scan_by_file s = Except.error c) : c = 1 := by
  simp only [get_scan_by_file] at h
  split at h
  · simp at h
  · split at h
    · simp at h
    · simpa using h.symm

theorem get_if_continue_error {s : String} {c : Nat}
    (h : get_if_continue s = Except.error c) : c = 1 := by
  simp only [get_if_continue] at h
  split at h
  · simp at h
  · split at h
    · simp at h
    · simpa using h.symm

theorem guide_port_step_error {p : String} {ports : List String} {c : Nat}
    (h : guide_port_step p ports = Except.error c) : c = 1 := by
  unfold guide_port_step at h
  split at h
  · simp at h
  · simpa using h.symm

theorem postScan_exit_code {ds : List (Nat × DeviceRecord)} {s : String}
    {c : Nat} (h : postScan ds s = PostScanOutcome.exit c) : c = 0 ∨ c = 1 := by
  unfold postScan at h
  split at h
  · left
    simpa using h.symm
  · split at h
    · rename_i c' hc'
      right
      have h1 := get_if_continue_error hc'
      have h2 : c = c' := by simpa using h.symm
      rw [h2, h1]
    · simp at h
    · left
      simpa using h.symm

/-- C7: every `sys.exit` site of the module carries status 0 or 1; the
clean user stop and the zero-devices stop carry 0, the three invalid
console answers and the unavailable-port check carry 1, and the
no-COM-ports path (`sys.exit()` with no argument) also stays within
{0, 1}: each prompt function can only fail with 1, the port scan can only
fail with 0, and the post-scan step can only exit with 0 or 1. -/
theorem exit_codes_zero_or_one :
    (∀ e : ExitSite, exitCode e = 0 ∨ exitCode e = 1) ∧
    exitCode ExitSite.userStop = 0 ∧
    exitCode ExitSite.zeroDevicesFound = 0 ∧
    exitCode ExitSite.invalidDevMgmtAnswer = 1 ∧
    exitCode ExitSite.invalidScanByFileAnswer = 1 ∧
    exitCode ExitSite.invalidContinueAnswer = 1 ∧
    exitCode ExitSite.unavailablePort = 1 ∧
    (∀ found c, scan_available_ports found = Except.error c →
      c = exitCode ExitSite.noComPorts) ∧
    (∀ s c, get_if_pop_system_device_management s = Except.error c → c = 1) ∧
    (∀ s c, get_scan_by_file s = Except.error c → c = 1) ∧
    (∀ s c, get_if_continue s = Except.error c → c = 1) ∧
    (∀ p ports c, guide_port_step p ports = Except.error c → c = 1) ∧
    (∀ ds s c, postScan ds s = PostScanOutcome.exit c → c = 0 ∨ c = 1) := by
  refine ⟨fun e => by cases e <;> simp [exitCode], rfl, rfl, rfl, rfl, rfl, rfl,
    ?_, ?_, ?_, ?_, ?_, ?_⟩
  · intro found c h
    cases found with
    | none => simpa [scan_available_ports, exitCode] using h.symm
    | some ports => simp [scan_available_ports] at h
  · exact fun s c h => get_if_pop_error h
  · exact fun s c h => get_scan_by_file_error h
  · exact fun s c h => get_if_continue_error h
  · exact fun p ports c h => guide_port_step_error h
  · exact fun ds s c h => postScan_exit_code h

/-- Instantiation of `exit_codes_zero_or_one`: the no-COM-ports exit
carries code 0, an invalid continue answer carries code 1, and the
zero-devices exit carries a code in {0, 1}. -/
theorem exit_codes_zero_or_one_witness :
    (0 : Nat) = exitCode ExitSite.noComPorts ∧
    (1 : Nat) = 1 ∧
    ((0 : Nat) = 0 ∨ (0 : Nat) = 1) := by
  refine ⟨?_, ?_, ?_⟩
  · exact exit_codes_zero_or_one.2.2.2.2.2.2.2.1 none 0 rfl
  · exact exit_codes_zero_or_one.2.2.2.2.2.2.2.2.2.2.1 "quit" 1 rfl
  · exact exit_codes_zero_or_one.2.2.2.2.2.2.2.2.2.2.2.2 [] "y" 0 rfl


/-! ### Scan lemmas -/

theorem isOkE_iff {ε α : Type} (e : Except ε α) :
    isOkE e = true ↔ ∃ a, e = Except.ok a := by
  cases e <;> simp [isOkE]

theorem scanDevice_of_no_response {bus : ScanBus} {i : Nat}
    (h : bus.read_instrument_name i = none) :
    scanDevice bus i = Except.ok none := by
  unfold scanDevice
  rw [h]

theorem scanDevice_ok_none_inv {bus : ScanBus} {i : Nat}
    (h : scanDevice bus i = Except.ok none) :
    bus.read_instrument_name i = none := by
  simp only [scanDevice] at h
  split at h
  · assumption
  · split at h
    · simp at h
    · simp at h

theorem scanDevice_ok_some_inv {bus : ScanBus} {i : Nat} {r : DeviceRecord}
    (h : scanDevice bus i = Except.ok (some r)) :
    ∃ raw, bus.read_instrument_name i = some raw ∧
      r.instrument_name = pyStrip (pyUpper raw) ∧
      (classify (pyStrip (pyUpper raw))).isSome = true := by
  simp only [scanDevice] at h
  split at h
  · simp at h
  · rename_i raw hraw
    split at h
    · simp at h
    · rename_i fam hfam
      refine ⟨raw, hraw, ?_, ?_⟩
      · have hr := h
        simp only [Except.ok.injEq, Option.some.injEq] at hr
        rw [← hr]
      · rw [hfam]
        rfl

theorem upsert_keys_sub {l : List (Nat × DeviceRecord)} {k : Nat}
    {v : DeviceRecord} {x : Nat}
    (hx : x ∈ (upsert l k v).map Prod.fst) :
    x ∈ l.map Prod.fst ∨ x = k := by
  unfold upsert at hx
  split at hx
  · simp only [List.map_map, List.mem_map, Function.comp] at hx
    obtain ⟨p, hp, hpx⟩ := hx
    by_cases hpk : (p.1 == k) = true
    · right
      rw [← hpx, if_pos hpk]
    · left
      exact List.mem_map.mpr ⟨p, hp, by rw [← hpx, if_neg hpk]⟩
  · simp only [List.map_append, List.mem_append, List.map_cons, List.map_nil,
      List.mem_cons, List.not_mem_nil, or_false] at hx
    rcases hx with h | h
    · exact Or.inl h
    · exact Or.inr h

theorem upsert_mem {l : List (Nat × DeviceRecord)} {k : Nat} {v : DeviceRecord}
    {p : Nat × DeviceRecord} (hp : p ∈ upsert l k v) :
    p ∈ l ∨ p = (k, v) := by
  unfold upsert at hp
  split at hp
  · simp only [List.mem_map] at hp
    obtain ⟨q, hq, hqp⟩ := hp
    by_cases hqk : (q.1 == k) = true
    · right
      rw [← hqp, if_pos hqk]
    · left
      rw [← hqp, if_neg hqk]
      exact hq
  · simp only [List.mem_append, List.mem_cons, List.not_mem_nil, or_false] at hp
    exact hp

theorem upsert_of_not_mem {l : List (Nat × DeviceRecord)} {k : Nat}
    {v : DeviceRecord} (h : l.any (fun p => p.1 == k) = false) :
    upsert l k v = l ++ [(k, v)] := by
  unfold upsert
  rw [if_neg (by simp [h])]

theorem scanDevices_keys {bus : ScanBus} {ids : List Nat} :
    ∀ {acc res : List (Nat × DeviceRecord)},
      scanDevices bus ids acc = Except.ok res → ∀ {x : Nat},
      x ∈ res.map Prod.fst →
      x ∈ acc.map Prod.fst ∨ (x ∈ ids ∧ bus.read_instrument_name x ≠ none) := by
  induction ids with
  | nil =>
    intro acc res h x hx
    simp only [scanDevices] at h
    obtain rfl : acc = res := by simpa using h
    exact Or.inl hx
  | cons i rest ih =>
    intro acc res h x hx
    simp only [scanDevices] at h
    split at h
    · simp at h
    · rcases ih h hx with h1 | ⟨h2, h3⟩
      · exact Or.inl h1
      · exact Or.inr ⟨List.mem_cons_of_mem i h2, h3⟩
    · rename_i r heq
      rcases ih h hx with h1 | ⟨h2, h3⟩
      · rcases upsert_keys_sub h1 with h4 | hxi
        · exact Or.inl h4
        · obtain ⟨raw, hraw, -, -⟩ := scanDevice_ok_some_inv heq
          refine Or.inr ⟨?_, ?_⟩
          · rw [hxi]
            exact List.mem_cons_self _ _
          · rw [hxi, hraw]
            simp
      · exact Or.inr ⟨List.mem_cons_of_mem i h2, h3⟩

theorem scanDevices_fatal {bus : ScanBus} {i : Nat} {raw : String}
    (hraw : bus.read_instrument_name i = some raw)
    (hbad : classify (pyStrip (pyUpper raw)) = none) :
    ∀ {ids : List Nat}, i ∈ ids → ∀ (acc : List (Nat × DeviceRecord)),
      isOkE (scanDevices bus ids acc) = false := by
  intro ids
  induction ids with
  | nil =>
    intro h
    simp at h
  | cons j rest ih =>
    intro hmem acc
    simp only [scanDevices]
    rcases List.mem_cons.mp hmem with heq | hmem'
    · have hraw' : bus.read_instrument_name j = some raw := by
        rw [← heq]
        exact hraw
      have hj : scanDevice bus j = Except.error
          s!"Invalid instrument name {pyStrip (pyUpper raw)}" := by
        simp only [scanDevice, hraw', hbad]
      rw [hj]
      rfl
    · cases hsd : scanDevice bus j with
      | error e => rfl
      | ok o =>
        cases o with
        | none => exact ih hmem' acc
        | some r => exact ih hmem' (upsert acc j r)

theorem scanDevices_classify {bus : ScanBus} {ids : List Nat} :
    ∀ {acc res : List (Nat × DeviceRecord)},
      (∀ p ∈ acc, (classify p.2.instrument_name).isSome = true) →
      scanDevices bus ids acc = Except.ok res →
      ∀ p ∈ res, (classify p.2.instrument_name).isSome = true := by
  induction ids with
  | nil =>
    intro acc res hacc h
    simp only [scanDevices] at h
    obtain rfl : acc = res := by simpa using h
    exact hacc
  | cons i rest ih =>
    intro acc res hacc h
    simp only [scanDevices] at h
    split at h
    · simp at h
    · exact ih hacc h
    · rename_i r heq
      refine ih ?_ h
      intro p hp
      rcases upsert_mem hp with hp' | rfl
      · exact hacc p hp'
      · obtain ⟨raw, hraw, hname, hcls⟩ := scanDevice_ok_some_inv heq
        simpa [hname] using hcls

theorem scanDevices_acc_append (bus : ScanBus) :
    ∀ {ids : List Nat}, ids.Nodup →
      ∀ (acc : List (Nat × DeviceRecord)),
      (∀ k ∈ acc.map Prod.fst, k ∉ ids) →
      scanDevices bus ids acc =
        Except.map (fun l => acc ++ l) (scanDevices bus ids []) := by
  intro ids
  induction ids with
  | nil =>
    intro _ acc _
    simp [scanDevices, Except.map]
  | cons i rest ih =>
    intro hnd acc hdisj
    have hnd' : rest.Nodup := (List.nodup_cons.mp hnd).2
    have hi : i ∉ rest := (List.nodup_cons.mp hnd).1
    simp only [scanDevices]
    cases hsd : scanDevice bus i with
    | error e => rfl
    | ok o =>
      cases o with
      | none =>
        exact ih hnd' acc (fun k hk hmem => hdisj k hk (List.mem_cons_of_mem i hmem))
      | some r =>
        have hacc_i : acc.any (fun p => p.1 == i) = false := by
          cases hval : acc.any (fun p => p.1 == i) with
          | false => rfl
          | true =>
            exfalso
            simp only [List.any_eq_true] at hval
            obtain ⟨p, hp, hpi⟩ := hval
            exact hdisj i (List.mem_map.mpr ⟨p, hp, by simpa using hpi⟩)
              (List.mem_cons_self i rest)
        show scanDevices bus rest (upsert acc i r) =
          Except.map (fun l => acc ++ l) (scanDevices bus rest (upsert [] i r))
        rw [upsert_of_not_mem hacc_i]
        have hupn : upsert ([] : List (Nat × DeviceRecord)) i r = [(i, r)] := rfl
        rw [hupn]
        have h1 : scanDevices bus rest (acc ++ [(i, r)]) =
            Except.map (fun l => (acc ++ [(i, r)]) ++ l) (scanDevices bus rest []) := by
          apply ih hnd' _
          intro k hk
          simp only [List.map_append, List.mem_append, List.map_cons, List.map_nil,
            List.mem_cons, List.not_mem_nil, or_false] at hk
          rcases hk with hk | hk
          · exact fun hmem => hdisj k hk (List.mem_cons_of_mem i hmem)
          · subst hk
            exact hi
        have h2 : scanDevices bus rest [(i, r)] =
            Except.map (fun l => [(i, r)] ++ l) (scanDevices bus rest []) := by
          apply ih hnd' _
          intro k hk
          simp only [List.map_cons, List.map_nil, List.mem_cons,
            List.not_mem_nil, or_false] at hk
          subst hk
          exact hi
        rw [h1, h2]
        cases scanDevices bus rest [] with
        | error e => rfl
        | ok l => simp [Except.map, List.append_assoc]

theorem scanDevices_nodup_keys {bus : ScanBus} :
    ∀ {ids : List Nat}, ids.Nodup →
      ∀ {res : List (Nat × DeviceRecord)},
      scanDevices bus ids [] = Except.ok res →
      res.map Prod.fst = ids.filter (fun i => (bus.read_instrument_name i).isSome) := by
  intro ids
  induction ids with
  | nil =>
    intro _ res h
    obtain rfl : ([] : List (Nat × DeviceRecord)) = res := by
      simpa [scanDevices] using h
    rfl
  | cons i rest ih =>
    intro hnd res h
    obtain ⟨hi, hndr⟩ := List.nodup_cons.mp hnd
    simp only [scanDevices] at h
    split at h
    · simp at h
    · rename_i heq
      have hnone : bus.read_instrument_name i = none := scanDevice_ok_none_inv heq
      rw [List.filter_cons_of_neg (by simp [hnone])]
      exact ih hndr h
    · rename_i r heq
      obtain ⟨raw, hraw, -, -⟩ := scanDevice_ok_some_inv heq
      rw [List.filter_cons_of_pos (by simp [hraw])]
      have hup : upsert ([] : List (Nat × DeviceRecord)) i r = [(i, r)] := rfl
      rw [hup] at h
      have happ := scanDevices_acc_append bus hndr [(i, r)]
        (by
          intro k hk
          simp only [List.map_cons, List.map_nil, List.mem_cons,
            List.not_mem_nil, or_false] at hk
          subst hk
          exact hi)
      rw [happ] at h
      cases hx : scanDevices bus rest [] with
      | error e =>
        rw [hx] at h
        simp [Except.map] at h
      | ok l =>
        rw [hx] at h
        simp only [Except.map] at h
        obtain rfl : (i, r) :: l = res := by simpa using h
        simp only [List.map_cons]
        rw [ih hndr hx]


/-- C4: during a scan over any candidate address list, an address whose
identity query returns `None` is skipped without error and never appears
in the result mapping, while an address whose (uppercased, trimmed)
instrument name fails the ANEMO/THERM/HYGRO prefix classification makes
the whole scan raise (`ValueError`, fatal for the scan). -/
theorem scan_no_response_skipped_bad_prefix_fatal (bus : ScanBus) (ids : List Nat) :
    (∀ i, bus.read_instrument_name i = none → scanDevice bus i = Except.ok none) ∧
    (∀ res, scanDevices bus ids [] = Except.ok res →
      ∀ i, i ∈ res.map Prod.fst → bus.read_instrument_name i ≠ none) ∧
    (∀ i, i ∈ ids → ∀ raw, bus.read_instrument_name i = some raw →
      classify (pyStrip (pyUpper raw)) = none →
      isOkE (scanDevices bus ids []) = false) := by
  refine ⟨fun i h => scanDevice_of_no_response h, ?_, ?_⟩
  · intro res h i hi
    rcases scanDevices_keys h hi with h1 | ⟨-, h2⟩
    · simp at h1
    · exact h2
  · intro i hi raw hraw hbad
    exact scanDevices_fatal hraw hbad hi []

/-- Instantiation of `scan_no_response_skipped_bad_prefix_fatal`: silent
address 2 scans to "no device" without error, and a scan of `[1]`, where
address 1 answers `"FOO-1"`, fails as a whole. -/
theorem scan_no_response_skipped_bad_prefix_fatal_witness :
    scanDevice fooScanBus 2 = Except.ok none ∧
    isOkE (scanDevices fooScanBus [1] []) = false := by
  constructor
  · exact (scan_no_response_skipped_bad_prefix_fatal fooScanBus [1]).1 2 rfl
  · exact (scan_no_response_skipped_bad_prefix_fatal fooScanBus [1]).2.2 1
      (List.mem_singleton.mpr rfl) "FOO-1" rfl rfl

theorem paramBlock_ok (bus : SensoBus) (i : Nat) (n : String) (sc : Option Nat)
    (h : (classify n).isSome = true) :
    isOkE (paramBlock bus (i, n, sc)) = true := by
  simp only [paramBlock]
  by_cases h1 : startswith n "ANEMO" = true
  · rw [if_pos h1]
    rfl
  · rw [if_neg h1]
    by_cases h2 : startswith n "THERM" = true
    · rw [if_pos h2]
      rfl
    · rw [if_neg h2]
      by_cases h3 : startswith n "HYGRO" = true
      · rw [if_pos h3]
        rfl
      · exfalso
        simp only [classify] at h
        rw [if_neg h1, if_neg h2, if_neg h3] at h
        simp at h

theorem dataBlock_ok (bus : SensoBus) (i : Nat) (n : String) (sc : Option Nat)
    (h : (classify n).isSome = true) :
    isOkE (dataBlock bus (i, n, sc)) = true := by
  simp only [dataBlock]
  by_cases h1 : startswith n "ANEMO" = true
  · rw [if_pos h1]
    cases bus.senso_anemo_read_measurement_data i <;> rfl
  · rw [if_neg h1]
    by_cases h2 : startswith n "THERM" = true
    · rw [if_pos h2]
      cases bus.senso_therm_read_temperatures i <;> rfl
    · rw [if_neg h2]
      by_cases h3 : startswith n "HYGRO" = true
      · rw [if_pos h3]
        cases bus.senso_hygbar_read_measurement_data i sc <;> rfl
      · exfalso
        simp only [classify] at h
        rw [if_neg h1, if_neg h2, if_neg h3] at h
        simp at h

theorem gamp_ok_of_classify {bus : SensoBus}
    {devs : List (Nat × String × Option Nat)}
    (h : ∀ d ∈ devs, (classify d.2.1).isSome = true) :
    isOkE (get_all_measurement_parameters bus devs) = true := by
  induction devs with
  | nil => rfl
  | cons d rest ih =>
    have hd := h d (List.mem_cons_self d rest)
    obtain ⟨i, n, sc⟩ := d
    obtain ⟨b, hb⟩ := (isOkE_iff _).mp (paramBlock_ok bus i n sc hd)
    obtain ⟨ps, hps⟩ := (isOkE_iff _).mp
      (ih (fun d hmem => h d (List.mem_cons_of_mem _ hmem)))
    simp only [get_all_measurement_parameters, hb, hps]
    rfl

theorem read_data_ok_of_classify {bus : SensoBus}
    {devs : List (Nat × String × Option Nat)}
    (h : ∀ d ∈ devs, (classify d.2.1).isSome = true) :
    isOkE (read_data bus devs) = true := by
  induction devs with
  | nil => rfl
  | cons d rest ih =>
    have hd := h d (List.mem_cons_self d rest)
    obtain ⟨i, n, sc⟩ := d
    obtain ⟨p, hp⟩ := (isOkE_iff _).mp (dataBlock_ok bus i n sc hd)
    obtain ⟨b, w⟩ := p
    obtain ⟨q, hq⟩ := (isOkE_iff _).mp
      (ih (fun d hmem => h d (List.mem_cons_of_mem _ hmem)))
    obtain ⟨ds, ws⟩ := q
    simp only [read_data, hp, hq]
    rfl

/-- C10: for every device list produced by a successful scan, the
`ValueError` branches of `get_all_measurement_parameters` and `read_data`
are unreachable: every stored instrument name was uppercased, trimmed and
prefix-checked during the scan, the records are not modified afterwards,
and so both functions return normally on the derived device list (with
any read-time driver). -/
theorem invalid_name_unreachable (sbus : ScanBus) (bus : SensoBus)
    (ids : List Nat) (res : List (Nat × DeviceRecord))
    (h : scanDevices sbus ids [] = Except.ok res) :
    isOkE (get_all_measurement_parameters bus (devicesList res)) = true ∧
    isOkE (read_data bus (devicesList res)) = true := by
  have hcls : ∀ p ∈ res, (classify p.2.instrument_name).isSome = true :=
    scanDevices_classify (fun p hp => absurd hp (List.not_mem_nil p)) h
  have hdev : ∀ d ∈ devicesList res, (classify d.2.1).isSome = true := by
    intro d hd
    simp only [devicesList, List.mem_map] at hd
    obtain ⟨p, hp, rfl⟩ := hd
    exact hcls p hp
  exact ⟨gamp_ok_of_classify hdev, read_data_ok_of_classify hdev⟩

/-- Instantiation of `invalid_name_unreachable` on the two-anemometer scan
result of `demoScanBus`, read back with `sampleBus`. -/
theorem invalid_name_unreachable_witness :
    isOkE (get_all_measurement_parameters sampleBus
      (devicesList [(5, ⟨"ANEMO-X", some "n/a", none⟩),
        (3, ⟨"ANEMO-X", some "2023-02-01", none⟩)])) = true ∧
    isOkE (read_data sampleBus
      (devicesList [(5, ⟨"ANEMO-X", some "n/a", none⟩),
        (3, ⟨"ANEMO-X", some "2023-02-01", none⟩)])) = true :=
  invalid_name_unreachable demoScanBus sampleBus [5, 3]
    [(5, ⟨"ANEMO-X", some "n/a", none⟩), (3, ⟨"ANEMO-X", some "2023-02-01", none⟩)]
    rfl

/-- C9 (counterexample): a file-supplied ID list is scanned in file
order, not in ascending address order: scanning `[5, 3]` against a bus
where both addresses answer yields the insertion order `[5, 3]`, which is
not ascending.  This refutes the claim that the insertion order is
ascending for every scan. -/
theorem scan_order_counterexample :
    scanKeys (scan_devices_by_file demoScanBus [5, 3]) = [5, 3] ∧
    ascendingB (scanKeys (scan_devices_by_file demoScanBus [5, 3])) = false := by
  constructor
  · rfl
  · rfl

/-- C9 (amended): the device list is in scan insertion order.  For every
duplicate-free candidate ID list — an ID file names each device once, and
the full range 0 to 255 is duplicate-free — the insertion order is
exactly the candidate-list order restricted to responding addresses; so a
file-supplied list keeps file order, which need not be ascending, and the
order is ascending whenever the candidates are strictly ascending, in
particular for the full-range scan over ids 0 to 255. -/
theorem scan_order_insertion (bus : ScanBus) :
    (∀ ids res, ids.Nodup →
      scanDevices bus ids [] = Except.ok res →
      res.map Prod.fst = ids.filter (fun i => (bus.read_instrument_name i).isSome)) ∧
    (∀ ids res, List.Pairwise (· < ·) ids →
      scanDevices bus ids [] = Except.ok res →
      List.Pairwise (· < ·) (res.map Prod.fst)) ∧
    (∀ res, scan_devices_by_ids bus = Except.ok res →
      List.Pairwise (· < ·) (res.map Prod.fst)) := by
  have horder : ∀ ids res, ids.Nodup →
      scanDevices bus ids [] = Except.ok res →
      res.map Prod.fst = ids.filter (fun i => (bus.read_instrument_name i).isSome) :=
    fun ids res hnd h => scanDevices_nodup_keys hnd h
  have hsorted : ∀ ids res, List.Pairwise (· < ·) ids →
      scanDevices bus ids [] = Except.ok res →
      List.Pairwise (· < ·) (res.map Prod.fst) := by
    intro ids res hp h
    rw [horder ids res (hp.imp (fun hab => Nat.ne_of_lt hab)) h]
    exact hp.filter _
  exact ⟨horder, hsorted,
    fun res h => hsorted (List.range 256) res (List.pairwise_lt_range 256) h⟩

/-- Instantiation of `scan_order_insertion`: the unsorted duplicate-free
candidate list `[5, 3]` (file order) yields insertion order `[5, 3]`,
exactly the candidate order restricted to responders, and the ascending
candidate list `[3, 5]` yields ascending insertion order `[3, 5]`. -/
theorem scan_order_insertion_witness :
    ([(5, ⟨"ANEMO-X", some "n/a", none⟩),
      (3, ⟨"ANEMO-X", some "2023-02-01", none⟩)] : List (Nat × DeviceRecord)).map Prod.fst =
      [5, 3].filter (fun i => (demoScanBus.read_instrument_name i).isSome) ∧
    List.Pairwise (· < ·)
      (([(3, ⟨"ANEMO-X", some "2023-02-01", none⟩),
        (5, ⟨"ANEMO-X", some "n/a", none⟩)] : List (Nat × DeviceRecord)).map Prod.fst) :=
  ⟨(scan_order_insertion demoScanBus).1 [5, 3]
    [(5, ⟨"ANEMO-X", some "n/a", none⟩), (3, ⟨"ANEMO-X", some "2023-02-01", none⟩)]
    (by decide) rfl,
   (scan_order_insertion demoScanBus).2.1 [3, 5]
    [(3, ⟨"ANEMO-X", some "2023-02-01", none⟩), (5, ⟨"ANEMO-X", some "n/a", none⟩)]
    (by decide) rfl⟩


/-! ### Header/row alignment -/

theorem block_length_eq {bus : SensoBus} {i : Nat} {n : String} {sc : Option Nat}
    {b1 : List String} {b2 : List Cell} {w : List String}
    (h1 : paramBlock bus (i, n, sc) = Except.ok b1)
    (h2 : dataBlock bus (i, n, sc) = Except.ok (b2, w)) :
    b1.length = b2.length := by
  simp only [paramBlock] at h1
  simp only [dataBlock] at h2
  by_cases ha : startswith n "ANEMO" = true
  · rw [if_pos ha] at h1 h2
    have hb1 : b1 = [s!"t_a_{i}", s!"v_{i}", s!"vstar_{i}"] := by simpa using h1.symm
    cases hr : bus.senso_anemo_read_measurement_data i with
    | none =>
      rw [hr] at h2
      simp only [Except.ok.injEq, Prod.mk.injEq] at h2
      rw [hb1, ← h2.1]
      rfl
    | some r =>
      rw [hr] at h2
      simp only [Except.ok.injEq, Prod.mk.injEq] at h2
      rw [hb1, ← h2.1]
      rfl
  · rw [if_neg ha] at h1 h2
    by_cases ht : startswith n "THERM" = true
    · rw [if_pos ht] at h1 h2
      have hb1 : b1 = [s!"t_a_{i}", s!"t_g_{i}", s!"t_w_{i}", s!"t_s_{i}"] := by
        simpa using h1.symm
      cases hr : bus.senso_therm_read_temperatures i with
      | none =>
        rw [hr] at h2
        simp only [Except.ok.injEq, Prod.mk.injEq] at h2
        rw [hb1, ← h2.1]
        rfl
      | some r =>
        rw [hr] at h2
        simp only [Except.ok.injEq, Prod.mk.injEq] at h2
        rw [hb1, ← h2.1]
        rfl
    · rw [if_neg ht] at h1 h2
      by_cases hh : startswith n "HYGRO" = true
      · rw [if_pos hh] at h1 h2
        have hb1 : b1 = (bus.senso_hygbar_params sc).map (fun p => s!"{p}_{i}") := by
          simpa using h1.symm
        cases hr : bus.senso_hygbar_read_measurement_data i sc with
        | none =>
          rw [hr] at h2
          simp only [Except.ok.injEq, Prod.mk.injEq] at h2
          rw [hb1, ← h2.1]
          simp
        | some r =>
          rw [hr] at h2
          simp only [Except.ok.injEq, Prod.mk.injEq] at h2
          rw [hb1, ← h2.1]
          simp
      · rw [if_neg hh] at h1
        simp at h1

/-- C1: whenever both `get_all_measurement_parameters` and `read_data`
return on the same device list, the header list and the data row are the
concatenations, device by device in the same order, of per-device blocks
of equal length — so the two lists have exactly the same length and
position `i` of the row belongs to the same device, at the same offset,
as the parameter name at position `i` of the header. -/
theorem params_data_aligned (bus : SensoBus) :
    ∀ (devs : List (Nat × String × Option Nat)) (ps : List String)
      (row : List Cell) (ws : List String),
      get_all_measurement_parameters bus devs = Except.ok ps →
      read_data bus devs = Except.ok (row, ws) →
      ps.length = row.length ∧
      ps = (devs.map (paramBlockD bus)).flatten ∧
      row = (devs.map (dataBlockD bus)).flatten ∧
      ∀ d ∈ devs, (paramBlockD bus d).length = (dataBlockD bus d).length := by
  intro devs
  induction devs with
  | nil =>
    intro ps row ws hp hd
    simp only [get_all_measurement_parameters, Except.ok.injEq] at hp
    simp only [read_data, Except.ok.injEq, Prod.mk.injEq] at hd
    obtain rfl := hp
    obtain ⟨rfl, rfl⟩ := hd
    refine ⟨rfl, rfl, rfl, ?_⟩
    intro d hd'
    simp at hd'
  | cons d rest ih =>
    intro ps row ws hp hd
    simp only [get_all_measurement_parameters] at hp
    simp only [read_data] at hd
    cases hb : paramBlock bus d with
    | error e =>
      rw [hb] at hp
      simp at hp
    | ok b =>
      rw [hb] at hp
      cases hrest : get_all_measurement_parameters bus rest with
      | error e =>
        rw [hrest] at hp
        simp at hp
      | ok ps' =>
        rw [hrest] at hp
        simp only [Except.ok.injEq] at hp
        cases hdb : dataBlock bus d with
        | error e =>
          rw [hdb] at hd
          simp at hd
        | ok p =>
          obtain ⟨b2, w2⟩ := p
          rw [hdb] at hd
          cases hdrest : read_data bus rest with
          | error e =>
            rw [hdrest] at hd
            simp at hd
          | ok q =>
            obtain ⟨row', ws'⟩ := q
            rw [hdrest] at hd
            simp only [Except.ok.injEq, Prod.mk.injEq] at hd
            obtain ⟨rfl, rfl⟩ := hd
            obtain rfl := hp
            obtain ⟨hl, hpj, hrj, hblocks⟩ := ih ps' row' ws' hrest hdrest
            obtain ⟨i, n, sc⟩ := d
            have hbl := block_length_eq hb hdb
            have hpd : paramBlockD bus (i, n, sc) = b := by
              simp [paramBlockD, hb]
            have hdd : dataBlockD bus (i, n, sc) = b2 := by
              simp [dataBlockD, hdb]
            refine ⟨?_, ?_, ?_, ?_⟩
            · simp [List.length_append, hbl, hl]
            · simp only [List.map_cons, List.flatten_cons]
              rw [hpd, ← hpj]
            · simp only [List.map_cons, List.flatten_cons]
              rw [hdd, ← hrj]
            · intro d' hd'
              rcases List.mem_cons.mp hd' with heq | hmem
              · rw [heq, hpd, hdd]
                exact hbl
              · exact hblocks d' hmem

/-- Instantiation of `params_data_aligned` on a three-family device list:
the header list and the data row have equal length. -/
theorem params_data_aligned_witness :
    (["t_a_1", "v_1", "vstar_1", "t_a_2", "t_g_2", "t_w_2", "t_s_2",
      "rh_3", "p_baro_3"] : List String).length =
    ([some 20, some 1, some 2, none, none, none, none, some 55, none] :
      List Cell).length :=
  (params_data_aligned sampleBus
    [(1, "ANEMO-A", none), (2, "THERM-B", none), (3, "HYGRO-C", some 0)]
    ["t_a_1", "v_1", "vstar_1", "t_a_2", "t_g_2", "t_w_2", "t_s_2",
      "rh_3", "p_baro_3"]
    [some 20, some 1, some 2, none, none, none, none, some 55, none]
    ["No data received from 2 - THERM-B ..."] rfl rfl).1

/-! ### Per-device read failures -/

theorem classify_anemo {n : String} (h : classify n = some Family.anemo) :
    startswith n "ANEMO" = true := by
  simp only [classify] at h
  by_cases h1 : startswith n "ANEMO" = true
  · exact h1
  · rw [if_neg h1] at h
    by_cases h2 : startswith n "THERM" = true
    · rw [if_pos h2] at h
      simp at h
    · rw [if_neg h2] at h
      by_cases h3 : startswith n "HYGRO" = true
      · rw [if_pos h3] at h
        simp at h
      · rw [if_neg h3] at h
        simp at h

theorem classify_therm {n : String} (h : classify n = some Family.therm) :
    startswith n "ANEMO" = false ∧ startswith n "THERM" = true := by
  simp only [classify] at h
  by_cases h1 : startswith n "ANEMO" = true
  · rw [if_pos h1] at h
    simp at h
  · rw [if_neg h1] at h
    refine ⟨Bool.eq_false_iff.mpr h1, ?_⟩
    by_cases h2 : startswith n "THERM" = true
    · exact h2
    · rw [if_neg h2] at h
      by_cases h3 : startswith n "HYGRO" = true
      · rw [if_pos h3] at h
        simp at h
      · rw [if_neg h3] at h
        simp at h

theorem classify_hygro {n : String} (h : classify n = some Family.hygro) :
    startswith n "ANEMO" = false ∧ startswith n "THERM" = false ∧
      startswith n "HYGRO" = true := by
  simp only [classify] at h
  by_cases h1 : startswith n "ANEMO" = true
  · rw [if_pos h1] at h
    simp at h
  · rw [if_neg h1] at h
    refine ⟨Bool.eq_false_iff.mpr h1, ?_⟩
    by_cases h2 : startswith n "THERM" = true
    · rw [if_pos h2] at h
      simp at h
    · rw [if_neg h2] at h
      refine ⟨Bool.eq_false_iff.mpr h2, ?_⟩
      by_cases h3 : startswith n "HYGRO" = true
      · exact h3
      · rw [if_neg h3] at h
        simp at h

/-- C5: a failed per-device read is non-fatal.  For a device of each
family whose model-specific read returns `None`, and any remainder of the
device list whose cycle returns, the whole cycle still returns: the
failed device contributes exactly as many `None` cells as its parameter
contribution (3 for anemometers, 4 for thermometers, the
sensor-config-variant parameter count for hygrometer/barometers), one
warning is logged for it, and the remaining devices' cells follow
unchanged. -/
theorem failed_read_nonfatal (bus : SensoBus) (i : Nat) (n : String)
    (sc : Option Nat) (rest : List (Nat × String × Option Nat))
    (ds : List Cell) (ws : List String)
    (hrest : read_data bus rest = Except.ok (ds, ws)) :
    (classify n = some Family.anemo →
      bus.senso_anemo_read_measurement_data i = none →
      read_data bus ((i, n, sc) :: rest) =
        Except.ok (List.replicate 3 none ++ ds, warnMsg i n :: ws)) ∧
    (classify n = some Family.therm →
      bus.senso_therm_read_temperatures i = none →
      read_data bus ((i, n, sc) :: rest) =
        Except.ok (List.replicate 4 none ++ ds, warnMsg i n :: ws)) ∧
    (classify n = some Family.hygro →
      bus.senso_hygbar_read_measurement_data i sc = none →
      read_data bus ((i, n, sc) :: rest) =
        Except.ok (List.replicate (bus.senso_hygbar_params sc).length none ++ ds,
          warnMsg i n :: ws)) := by
  refine ⟨?_, ?_, ?_⟩
  · intro hc hr
    have h1 := classify_anemo hc
    have hblock : dataBlock bus (i, n, sc) =
        Except.ok ([none, none, none], [warnMsg i n]) := by
      simp only [dataBlock]
      rw [if_pos h1, hr]
    simp only [read_data, hblock, hrest]
    rfl
  · intro hc hr
    obtain ⟨h1, h2⟩ := classify_therm hc
    have hblock : dataBlock bus (i, n, sc) =
        Except.ok ([none, none, none, none], [warnMsg i n]) := by
      simp only [dataBlock]
      rw [if_neg (by simp [h1]), if_pos h2, hr]
    simp only [read_data, hblock, hrest]
    rfl
  · intro hc hr
    obtain ⟨h1, h2, h3⟩ := classify_hygro hc
    have hblock : dataBlock bus (i, n, sc) =
        Except.ok (List.replicate (bus.senso_hygbar_params sc).length none,
          [warnMsg i n]) := by
      simp only [dataBlock]
      rw [if_neg (by simp [h1]), if_neg (by simp [h2]), if_pos h3, hr]
    simp only [read_data, hblock, hrest]
    rfl

/-- Instantiation of `failed_read_nonfatal`: a silent thermometer at
address 9 yields four `None` cells and one warning, and the (empty)
remainder of the cycle still runs. -/
theorem failed_read_nonfatal_witness :
    read_data sampleBus [(9, "THERM-B", none)] =
      Except.ok (List.replicate 4 none ++ [], warnMsg 9 "THERM-B" :: []) :=
  (failed_read_nonfatal sampleBus 9 "THERM-B" none [] [] [] rfl).2.1 rfl rfl


/-! ### Configuration by file -/

theorem dlookup_of_any {l : JDict} {k : String}
    (h : l.any (fun q => q.1 == k) = true) : ∃ v, dlookup k l = some v := by
  induction l with
  | nil => simp at h
  | cons p rest ih =>
    simp only [List.any_cons, Bool.or_eq_true] at h
    by_cases hpk : (p.1 == k) = true
    · exact ⟨p.2, by simp [dlookup, hpk]⟩
    · rcases h with h | h
      · exact absurd h hpk
      · obtain ⟨v, hv⟩ := ih h
        exact ⟨v, by simp [dlookup, hpk, hv]⟩

theorem any_of_dlookup {l : JDict} {k : String} {v : JVal}
    (h : dlookup k l = some v) : l.any (fun q => q.1 == k) = true := by
  induction l with
  | nil => simp [dlookup] at h
  | cons p rest ih =>
    simp only [dlookup] at h
    by_cases hpk : (p.1 == k) = true
    · simp [List.any_cons, hpk]
    · rw [if_neg hpk] at h
      simp [List.any_cons, ih h]

theorem dlookup_of_mem_nodup {l : JDict} (hnd : (l.map Prod.fst).Nodup)
    {k : String} {v : JVal} (hm : (k, v) ∈ l) : dlookup k l = some v := by
  induction l with
  | nil => simp at hm
  | cons p rest ih =>
    simp only [List.map_cons, List.nodup_cons] at hnd
    rcases List.mem_cons.mp hm with heq | hmem
    · rw [← heq]
      simp [dlookup]
    · have hk : k ∈ rest.map Prod.fst := List.mem_map.mpr ⟨(k, v), hmem, rfl⟩
      have hpk : ¬((p.1 == k) = true) := by
        intro hx
        have hpk' : p.1 = k := by simpa using hx
        exact hnd.1 (by rw [hpk']; exact hk)
      simp only [dlookup]
      rw [if_neg hpk]
      exact ih hnd.2 hmem

theorem dictEq_update_of_sameKeySet {doc : JDict}
    (hnd : (doc.map Prod.fst).Nodup)
    (hsk : sameKeySet doc sensosys_configs_default = true) :
    dictEq (dictUpdate sensosys_configs_default doc) doc = true := by
  simp only [sameKeySet, Bool.and_eq_true, List.all_eq_true] at hsk
  obtain ⟨hdoc, hdef⟩ := hsk
  have h1 : doc.any (fun q => q.1 == "port") = true := by
    have := hdef ("port", JVal.jstr "COM1") (by simp [sensosys_configs_default])
    simpa using this
  have h2 : doc.any (fun q => q.1 == "scan_by_file") = true := by
    have := hdef ("scan_by_file", JVal.jbool false) (by simp [sensosys_configs_default])
    simpa using this
  have h3 : doc.any (fun q => q.1 == "time_out") = true := by
    have := hdef ("time_out", JVal.jnum 5 2) (by simp [sensosys_configs_default])
    simpa using this
  obtain ⟨v1, hv1⟩ := dlookup_of_any h1
  obtain ⟨v2, hv2⟩ := dlookup_of_any h2
  obtain ⟨v3, hv3⟩ := dlookup_of_any h3
  have hfilter : doc.filter
      (fun q => !(sensosys_configs_default.any (fun p => p.1 == q.1))) = [] := by
    rw [List.filter_eq_nil_iff]
    intro q hq
    have := hdoc q hq
    simp [this]
  have hupd : dictUpdate sensosys_configs_default doc =
      [("port", v1), ("scan_by_file", v2), ("time_out", v3)] := by
    simp only [dictUpdate]
    rw [hfilter]
    simp [sensosys_configs_default, hv1, hv2, hv3]
  rw [hupd]
  simp only [dictEq, Bool.and_eq_true, List.all_eq_true]
  constructor
  · intro p hp
    simp only [List.mem_cons, List.not_mem_nil, or_false] at hp
    rcases hp with rfl | rfl | rfl
    · simp [hv1]
    · simp [hv2]
    · simp [hv3]
  · intro p hp
    have hpin := hdoc p hp
    have hmem : dlookup p.1 doc = some p.2 := dlookup_of_mem_nodup hnd hp
    simp only [sensosys_configs_default, List.any_cons, List.any_nil,
      Bool.or_eq_true, Bool.or_false] at hpin
    rcases hpin with hk | hk | hk
    · have hk' : p.1 = "port" := by
        have : "port" = p.1 := by simpa using hk
        exact this.symm
      rw [hk'] at hmem
      rw [hv1] at hmem
      simp only [Option.some.injEq] at hmem
      simp [dlookup, hk', hmem]
    · have hk' : p.1 = "scan_by_file" := by
        have : "scan_by_file" = p.1 := by simpa using hk
        exact this.symm
      rw [hk'] at hmem
      rw [hv2] at hmem
      simp only [Option.some.injEq] at hmem
      simp [dlookup, hk', hmem]
    · have hk' : p.1 = "time_out" := by
        have : "time_out" = p.1 := by simpa using hk
        exact this.symm
      rw [hk'] at hmem
      rw [hv3] at hmem
      simp only [Option.some.injEq] at hmem
      simp [dlookup, hk', hmem]

theorem sameKeySet_of_dictEq_default {doc : JDict}
    (h : dictEq sensosys_configs_default doc = true) :
    sameKeySet doc sensosys_configs_default = true := by
  simp only [dictEq, Bool.and_eq_true, List.all_eq_true] at h
  obtain ⟨h1, h2⟩ := h
  simp only [sameKeySet, Bool.and_eq_true, List.all_eq_true]
  constructor
  · intro p hp
    have := h2 p hp
    have hl : dlookup p.1 sensosys_configs_default = some p.2 := by simpa using this
    exact any_of_dlookup hl
  · intro p hp
    have := h1 p hp
    have hl : dlookup p.1 doc = some p.2 := by simpa using this
    exact any_of_dlookup hl

/-- C2: for every loaded configuration document (unique keys, as
`json.load` guarantees), the configuration after
`_get_sensosys_configs_by_file` equals the document — key for key and
value for value — if and only if the document's key set is exactly
`{port, scan_by_file, time_out}`; the method reports success exactly in
that case, and for any other key set it reports failure and the
configuration is the unmodified default triple. -/
theorem configs_by_file_exact_key_set (doc : JDict)
    (hnd : (doc.map Prod.fst).Nodup) :
    (dictEq (get_sensosys_configs_by_file true doc sensosys_configs_default).2
        doc = true ↔
      sameKeySet doc sensosys_configs_default = true) ∧
    ((get_sensosys_configs_by_file true doc sensosys_configs_default).1 = true ↔
      sameKeySet doc sensosys_configs_default = true) ∧
    (sameKeySet doc sensosys_configs_default = false →
      get_sensosys_configs_by_file true doc sensosys_configs_default =
        (false, sensosys_configs_default)) := by
  by_cases hsk : sameKeySet doc sensosys_configs_default = true
  · have hres : get_sensosys_configs_by_file true doc sensosys_configs_default =
        (true, dictUpdate sensosys_configs_default doc) := by
      simp [get_sensosys_configs_by_file, hsk]
    rw [hres]
    refine ⟨⟨fun _ => hsk, fun _ => dictEq_update_of_sameKeySet hnd hsk⟩,
      by simp [hsk], ?_⟩
    intro hf
    rw [hsk] at hf
    exact absurd hf (by simp)
  · have hskf : sameKeySet doc sensosys_configs_default = false := by
      cases hx : sameKeySet doc sensosys_configs_default with
      | false => rfl
      | true => exact absurd hx hsk
    have hres : get_sensosys_configs_by_file true doc sensosys_configs_default =
        (false, sensosys_configs_default) := by
      simp [get_sensosys_configs_by_file, hskf]
    rw [hres]
    refine ⟨⟨fun hde => absurd (sameKeySet_of_dictEq_default hde) hsk,
      fun h => absurd h hsk⟩, by simp [hskf], fun _ => rfl⟩

/-- Instantiation of `configs_by_file_exact_key_set`: a complete document
with fresh values (in a different key order) is accepted and becomes the
configuration. -/
theorem configs_by_file_exact_key_set_witness :
    dictEq (get_sensosys_configs_by_file true sampleConfigDoc
      sensosys_configs_default).2 sampleConfigDoc = true :=
  ((configs_by_file_exact_key_set sampleConfigDoc (by decide)).1).mpr (by decide)

end SensoSys
